import Mathlib

/-!
Verification of the "Advanced Sounding" script: a linear pipeline that
loads a fixed-width atmospheric sounding file, filters rows missing all
observations, derives wind components, the lifted condensation level
(LCL) and a parcel temperature profile, and plots them.

The script itself is straight-line glue around library calls
(`pd.read_fwf`, `df.dropna`, `mpcalc.wind_components`, `mpcalc.lcl`,
`mpcalc.parcel_profile`).  The glue is embedded directly from the
notebook's code; the library calls are not part of the repository, so
they are modelled from the specification's description of their
behaviour (each such definition carries a doc comment saying so).
Numeric data parsed from the text file is modelled as `Option ℚ`
(a missing value is `none`); the real-valued meteorological
computations are modelled over `ℝ`.
-/

namespace Sounding

/-- One atmospheric observation level, the six columns selected by the
loader: `col_names = ['pressure', 'height', 'temperature', 'dewpoint',
'direction', 'speed']`.  A `none` field is a missing (NaN) value. -/
structure SoundingRecord where
  pressure : Option ℚ
  height : Option ℚ
  temperature : Option ℚ
  dewpoint : Option ℚ
  direction : Option ℚ
  speed : Option ℚ
  deriving DecidableEq

/-- A pandas data frame of sounding records: each row carries its index. -/
abbrev DataFrame : Type := List (ℕ × SoundingRecord)

/-- The predicate behind
`df.dropna(subset=('temperature', 'dewpoint', 'direction', 'speed'), how='all')`:
a row is kept when at least one of the four observation fields is present. -/
def keep (r : SoundingRecord) : Bool :=
  r.temperature.isSome || r.dewpoint.isSome || r.direction.isSome || r.speed.isSome

/-- `df.dropna(subset=('temperature', 'dewpoint', 'direction', 'speed'), how='all')`:
drop the rows in which all four of those fields are missing, keeping the
original indices of the surviving rows. -/
def dropna (df : DataFrame) : DataFrame :=
  df.filter fun x => keep x.2

/-- `reset_index(drop=True)`: renumber the rows contiguously from 0,
discarding the old index. -/
def resetIndex (df : DataFrame) : DataFrame :=
  (df.map Prod.snd).enum

/-- The whole filter stage of the notebook:
`df = df.dropna(subset=(...), how='all').reset_index(drop=True)`. -/
def filterStage (df : DataFrame) : DataFrame :=
  resetIndex (dropna df)

/-! ## The loader (`pd.read_fwf`), modelled from the spec -/

/-- ASCII value of a decimal digit character. -/
def digitVal (c : Char) : ℕ := c.toNat - 48

/-- Value of a list of decimal digit characters, most significant first. -/
def natOfDigits (cs : List Char) : ℕ :=
  cs.foldl (fun n c => 10 * n + digitVal c) 0

/-- Strip whitespace from both ends of a character list. -/
def trimChars (cs : List Char) : List Char :=
  ((cs.dropWhile Char.isWhitespace).reverse.dropWhile Char.isWhitespace).reverse

/-- Modelled from the spec: parsing of one unsigned fixed-width numeric
field (`pd.read_fwf` is not part of the repository).  Digits, optionally
followed by a decimal point and fractional digits; anything else is
malformed and yields `none`. -/
def parseUnsigned (cs : List Char) : Option ℚ :=
  let intPart := cs.takeWhile Char.isDigit
  let rest := cs.drop intPart.length
  if intPart.isEmpty then none
  else
    match rest with
    | [] => some (natOfDigits intPart : ℚ)
    | c :: frac =>
      if c = '.' && frac.all Char.isDigit then
        some ((natOfDigits intPart : ℚ) + (natOfDigits frac : ℚ) / (10 : ℚ) ^ frac.length)
      else none

/-- Modelled from the spec: a numeric field is trimmed and parsed with an
optional leading minus sign; a malformed field becomes a missing value
(`none`), never an error. -/
def parseDecimal (cs : List Char) : Option ℚ :=
  match trimChars cs with
  | '-' :: rest => (parseUnsigned rest).map (fun q => -q)
  | cs2 => parseUnsigned cs2

/-- Extract the slice of a line at the byte offsets of one column and
parse it. -/
def extractField (line : String) (c : ℕ × ℕ) : Option ℚ :=
  parseDecimal ((line.data.drop c.1).take (c.2 - c.1))

/-- Modelled from the spec: one line of the fixed-width file becomes one
record; `usecols=[0, 1, 2, 3, 6, 7]` selects the six fields by position
among the column byte ranges, and a malformed or absent slice becomes a
missing value. -/
def parseLine (colspecs : List (ℕ × ℕ)) (line : String) : SoundingRecord :=
  { pressure := (colspecs.get? 0).bind (extractField line)
    height := (colspecs.get? 1).bind (extractField line)
    temperature := (colspecs.get? 2).bind (extractField line)
    dewpoint := (colspecs.get? 3).bind (extractField line)
    direction := (colspecs.get? 6).bind (extractField line)
    speed := (colspecs.get? 7).bind (extractField line) }

/-- Modelled from the spec:
`pd.read_fwf(..., skiprows=5, usecols=[0, 1, 2, 3, 6, 7], names=col_names)`.
The first 5 header lines are skipped, every remaining line becomes one
record (malformed fields become missing values, the load never fails),
and the resulting frame is indexed contiguously from 0. -/
def read_fwf (colspecs : List (ℕ × ℕ)) (lines : List String) : DataFrame :=
  ((lines.drop 5).map (parseLine colspecs)).enum

/-! ## Filter stage theorems -/

/-- Restricting an index/record list to its records commutes with
filtering on the record. -/
theorem map_snd_filter_keep (l : List (ℕ × SoundingRecord)) :
    (l.filter fun x => keep x.2).map Prod.snd = (l.map Prod.snd).filter keep := by
  rw [List.filter_map Prod.snd l]
  rfl

/-- C1: the filter stage removes exactly the rows in which temperature,
dewpoint, direction and speed are all absent; any row with at least one
of the four present is kept unchanged, in order, and the kept rows are
re-indexed contiguously from 0. -/
theorem c1_filter_exact (df : DataFrame) :
    (filterStage df).map Prod.snd = (df.map Prod.snd).filter keep
    ∧ (filterStage df).map Prod.fst = List.range ((filterStage df).length)
    ∧ ∀ r : SoundingRecord, keep r = false ↔
        (r.temperature = none ∧ r.dewpoint = none ∧ r.direction = none ∧ r.speed = none) := by
  refine ⟨?_, ?_, ?_⟩
  · rw [filterStage, resetIndex, dropna, List.enum_map_snd, map_snd_filter_keep]
  · rw [filterStage, resetIndex, dropna, List.enum_map_fst, List.enum_length]
  · rintro ⟨p, h, t, d, dir, s⟩
    cases t <;> cases d <;> cases dir <;> cases s <;> simp [keep]

/-- C8: the filter stage is idempotent. -/
theorem c8_filter_idempotent (df : DataFrame) :
    filterStage (filterStage df) = filterStage df := by
  unfold filterStage resetIndex dropna
  rw [map_snd_filter_keep, List.enum_map_snd, map_snd_filter_keep,
    List.filter_filter]
  simp

/-- C9: the filter inspects only temperature, dewpoint, direction and
speed: its decision is unchanged by any replacement of pressure and
height, a row with all four observations missing is dropped whatever its
pressure and height, and membership in the filtered frame is decided by
`keep` alone. -/
theorem c9_filter_ignores_pressure_height (r : SoundingRecord) (p h : Option ℚ) :
    keep { r with pressure := p, height := h } = keep r
    ∧ keep { r with temperature := none, dewpoint := none, direction := none, speed := none } = false
    ∧ ∀ (df : DataFrame) (x : ℕ × SoundingRecord),
        x ∈ dropna df ↔ x ∈ df ∧ keep x.2 = true := by
  refine ⟨rfl, rfl, ?_⟩
  intro df x
  simp [dropna, List.mem_filter]

/-! ## Loader theorems -/

/-- C6: the loader skips exactly 5 header rows, turns every remaining
line into one record whose six fields are taken positionally from the
column byte ranges 0, 1, 2, 3, 6 and 7, and never fails: every physical
line yields a row (malformed fields having become missing values). -/
theorem c6_loader (colspecs : List (ℕ × ℕ)) (lines : List String) :
    (read_fwf colspecs lines).length = lines.length - 5
    ∧ (∀ i, (read_fwf colspecs lines).get? i
        = (lines.get? (5 + i)).map fun l => (i, parseLine colspecs l))
    ∧ (∀ line,
        (parseLine colspecs line).pressure = (colspecs.get? 0).bind (extractField line)
        ∧ (parseLine colspecs line).height = (colspecs.get? 1).bind (extractField line)
        ∧ (parseLine colspecs line).temperature = (colspecs.get? 2).bind (extractField line)
        ∧ (parseLine colspecs line).dewpoint = (colspecs.get? 3).bind (extractField line)
        ∧ (parseLine colspecs line).direction = (colspecs.get? 6).bind (extractField line)
        ∧ (parseLine colspecs line).speed = (colspecs.get? 7).bind (extractField line))
    ∧ (∀ i line, lines.get? (5 + i) = some line →
        (read_fwf colspecs lines).get? i = some (i, parseLine colspecs line)) := by
  refine ⟨?_, ?_, ?_, ?_⟩
  · rw [read_fwf, List.enum_length, List.length_map, List.length_drop]
  · intro i
    rw [read_fwf, List.get?_enum, List.get?_map, List.get?_drop, Option.map_map]
    rfl
  · intro line
    exact ⟨rfl, rfl, rfl, rfl, rfl, rfl⟩
  · intro i line hline
    rw [read_fwf, List.get?_enum, List.get?_map, List.get?_drop, hline]
    rfl

/-- Witness for C6 on a concrete six-line file whose data line would
parse as 42 in the single configured column. -/
theorem c6_loader_witness :
    (read_fwf [(0, 7)] ["h1", "h2", "h3", "h4", "h5", "  42"]).get? 0
      = some (0, parseLine [(0, 7)] "  42") :=
  (c6_loader [(0, 7)] ["h1", "h2", "h3", "h4", "h5", "  42"]).2.2.2 0 "  42" rfl

/-! ## Derived quantities (`metpy.calc`), modelled from the spec -/

noncomputable section

/-- Poisson exponent R/cp governing dry-adiabatic temperature change. -/
def kappaDry : ℝ := 2 / 7

/-- Clausius–Clapeyron exponent governing the dewpoint change of a
lifted parcel (mixing ratio conserved); only `0 < kappaDew < kappaDry`
matters for the stated properties. -/
def kappaDew : ℝ := 1 / 20

/-- Exponent governing moist-adiabatic temperature change above the
LCL; smaller than the dry exponent. -/
def kappaMoist : ℝ := 1 / 6

/-- Modelled from the spec: the pressure component of `mpcalc.lcl`
(library code, not in the repository).  The parcel temperature follows
the dry adiabat `T0K * (p/p0)^kappaDry` while its dewpoint follows
`Td0K * (p/p0)^kappaDew`; the LCL is the pressure at which the two
meet.  Temperatures are given in °C and converted to kelvin. -/
def lclPressure (p T Td : ℝ) : ℝ :=
  p * ((Td + 273.15) / (T + 273.15)) ^ ((1 : ℝ) / (kappaDry - kappaDew))

/-- Modelled from the spec: the temperature component of `mpcalc.lcl`:
the dry-adiabatic parcel temperature at the LCL pressure, in °C. -/
def lclTemperature (p T Td : ℝ) : ℝ :=
  (T + 273.15) * (lclPressure p T Td / p) ^ kappaDry - 273.15

/-- Modelled from the spec: `mpcalc.lcl(p, T, Td)` returns the LCL
pressure and temperature of a parcel lifted from `(p, T, Td)`. -/
def lcl (p T Td : ℝ) : ℝ × ℝ := (lclPressure p T Td, lclTemperature p T Td)

/-- Modelled from the spec: parcel temperature at one pressure level —
dry adiabat from the surface up to the LCL, moist adiabat above it. -/
def parcelTempAt (p0 T0 Td0 p : ℝ) : ℝ :=
  if lclPressure p0 T0 Td0 ≤ p then (T0 + 273.15) * (p / p0) ^ kappaDry - 273.15
  else (lclTemperature p0 T0 Td0 + 273.15) * (p / lclPressure p0 T0 Td0) ^ kappaMoist - 273.15

/-- Modelled from the spec: `mpcalc.parcel_profile(p, T0, Td0)` — the
parcel temperature at every pressure level of the input sequence,
lifting from the first (surface) level. -/
def parcel_profile (ps : List ℝ) (T0 Td0 : ℝ) : List ℝ :=
  ps.map (parcelTempAt ps.headI T0 Td0)

/-- Degrees to radians, the unit conversion `metpy.units` applies to the
direction column. -/
def radiansOfDegrees (d : ℝ) : ℝ := d * Real.pi / 180

/-- Modelled from the spec: `mpcalc.wind_components(speed, direction)`
with direction the compass bearing the wind blows from, in degrees:
`u = -speed*sin(dir)`, `v = -speed*cos(dir)` with `dir` in radians. -/
def wind_components (speed dir : ℝ) : ℝ × ℝ :=
  (-speed * Real.sin (radiansOfDegrees dir), -speed * Real.cos (radiansOfDegrees dir))

/-- Two-argument arctangent: the argument of the complex number
`x + y i`, in `(-π, π]`. -/
def atan2 (y x : ℝ) : ℝ := Complex.arg (x + y * Complex.I)

/-- Modelled from the spec: `mpcalc.wind_speed(u, v)`, the magnitude of
the wind vector. -/
def wind_speed (u v : ℝ) : ℝ := Real.sqrt (u ^ 2 + v ^ 2)

/-- Modelled from the spec: `mpcalc.wind_direction(u, v)` — the compass
bearing the wind blows from, `90° - atan2(-v, -u)` brought into
`(0°, 360°]`, with calm winds reported as 0. -/
def wind_direction (u v : ℝ) : ℝ :=
  if u = 0 ∧ v = 0 then 0
  else
    let w := 90 - atan2 (-v) (-u) * 180 / Real.pi
    if w ≤ 0 then w + 360 else w

/-- `lcl_pressure, lcl_temperature = mpcalc.lcl(p[0], T[0], Td[0])`:
the notebook lifts from index 0 of the extracted columns. -/
def deriveLCL (p T Td : List ℚ) : ℝ × ℝ :=
  lcl (p.headI : ℝ) (T.headI : ℝ) (Td.headI : ℝ)

/-- A parsed column viewed as real numbers, as `.values * units...`
hands the column to the calculation routines. -/
def ratList (p : List ℚ) : List ℝ := p.map Rat.cast

/-- `prof = mpcalc.parcel_profile(p, T[0], Td[0])`: the notebook lifts
from index 0 of the extracted columns. -/
def deriveProfile (p T Td : List ℚ) : List ℝ :=
  parcel_profile (ratList p) (T.headI : ℝ) (Td.headI : ℝ)

end

/-- Whether a pressure column is sorted in decreasing order
(surface-first), the ordering the notebook's comment assumes. -/
def sortedDescending : List ℚ → Bool
  | [] => true
  | [_] => true
  | a :: b :: rest => decide (b ≤ a) && sortedDescending (b :: rest)

/-! ## Deriver theorems -/

/-- C2: the derived parcel profile has exactly one temperature per input
pressure level, in the same order as the input pressure levels. -/
theorem c2_profile_one_per_level (p T Td : List ℚ) :
    (deriveProfile p T Td).length = p.length
    ∧ (∀ i, (deriveProfile p T Td).get? i
        = ((ratList p).get? i).map (parcelTempAt ((ratList p).headI) (T.headI : ℝ) (Td.headI : ℝ)))
    ∧ ∀ (ps : List ℝ) (T0 Td0 : ℝ), (parcel_profile ps T0 Td0).length = ps.length := by
  refine ⟨?_, ?_, ?_⟩
  · rw [deriveProfile, parcel_profile, List.length_map, ratList, List.length_map]
  · intro i
    rw [deriveProfile, parcel_profile, List.get?_map]
  · intro ps T0 Td0
    rw [parcel_profile, List.length_map]

/-- C3: the wind components satisfy `u = -s*sin(d)`, `v = -s*cos(d)`
with the direction converted from degrees to radians; consequently a
wind from the north (0°) blows southward, from the east (90°) westward,
from the south (180°) northward and from the west (270°) eastward. -/
theorem c3_wind_components (s d : ℝ) :
    wind_components s d
      = (-s * Real.sin (d * Real.pi / 180), -s * Real.cos (d * Real.pi / 180))
    ∧ wind_components s 0 = (0, -s)
    ∧ wind_components s 90 = (-s, 0)
    ∧ wind_components s 180 = (0, s)
    ∧ wind_components s 270 = (s, 0) := by
  refine ⟨rfl, ?_, ?_, ?_, ?_⟩
  · simp [wind_components, radiansOfDegrees]
  · have h : (90 : ℝ) * Real.pi / 180 = Real.pi / 2 := by ring
    simp [wind_components, radiansOfDegrees, h]
  · have h : (180 : ℝ) * Real.pi / 180 = Real.pi := by ring
    simp [wind_components, radiansOfDegrees, h]
  · have h : (270 : ℝ) * Real.pi / 180 = Real.pi / 2 + Real.pi := by ring
    simp [wind_components, radiansOfDegrees, h, Real.sin_add_pi, Real.cos_add_pi]

/-- C5: both the LCL and the parcel profile take their lifting parcel
from the first record of the columns, also when the pressure column is
not sorted descending, and the result is insensitive to everything
beyond the data it reads: the LCL ignores the pressure tail and the
profile ignores the temperature and dewpoint tails. -/
theorem c5_lifts_from_first_record (x : ℚ) (rest rest' T Td : List ℚ)
    (_hunsorted : sortedDescending (x :: rest) = false) :
    deriveLCL (x :: rest) T Td = lcl (x : ℝ) (T.headI : ℝ) (Td.headI : ℝ)
    ∧ deriveLCL (x :: rest) T Td = deriveLCL (x :: rest') T Td
    ∧ ∀ (a b : ℚ) (T1 T2 Td1 Td2 : List ℚ),
        deriveProfile (x :: rest) (a :: T1) (b :: Td1)
          = parcel_profile (ratList (x :: rest)) (a : ℝ) (b : ℝ)
        ∧ deriveProfile (x :: rest) (a :: T1) (b :: Td1)
          = deriveProfile (x :: rest) (a :: T2) (b :: Td2) :=
  ⟨rfl, rfl, fun _ _ _ _ _ _ => ⟨rfl, rfl⟩⟩

/-- Witness for C5 on an ascending (hence not surface-first) pressure
column. -/
theorem c5_lifts_from_first_record_witness :
    deriveLCL [(250 : ℚ), 1000] [20] [18]
      = lcl ((250 : ℚ) : ℝ) ((20 : ℚ) : ℝ) ((18 : ℚ) : ℝ)
    ∧ deriveLCL [(250 : ℚ), 1000] [20] [18] = deriveLCL [(250 : ℚ)] [20] [18] := by
  have h := c5_lifts_from_first_record 250 [1000] [] [20] [18] (by decide)
  exact ⟨h.1, h.2.1⟩

/-- C4: lifting cools: the LCL lies at or below the starting level, in
pressure and in temperature, and strictly below it as soon as the
surface parcel is unsaturated (`Td < T`). -/
theorem c4_lcl_below_surface (p T Td : ℝ) (hp : 0 < p)
    (hTd : 0 < Td + 273.15) (hle : Td ≤ T) :
    (lcl p T Td).1 ≤ p ∧ (lcl p T Td).2 ≤ T
    ∧ (Td < T → (lcl p T Td).1 < p ∧ (lcl p T Td).2 < T) := by
  have hTK : (0 : ℝ) < T + 273.15 := lt_of_lt_of_le hTd (by linarith)
  have hr0 : (0 : ℝ) ≤ (Td + 273.15) / (T + 273.15) := div_nonneg hTd.le hTK.le
  have hr1 : (Td + 273.15) / (T + 273.15) ≤ 1 := (div_le_one hTK).mpr (by linarith)
  have ha : (0 : ℝ) < 1 / (kappaDry - kappaDew) := by
    rw [kappaDry, kappaDew]; norm_num
  have hk : (0 : ℝ) < kappaDry := by rw [kappaDry]; norm_num
  have hx0 : (0 : ℝ) ≤ ((Td + 273.15) / (T + 273.15)) ^ ((1 : ℝ) / (kappaDry - kappaDew)) :=
    Real.rpow_nonneg hr0 _
  have hx1 : ((Td + 273.15) / (T + 273.15)) ^ ((1 : ℝ) / (kappaDry - kappaDew)) ≤ 1 :=
    Real.rpow_le_one hr0 hr1 ha.le
  have hdiv : lclPressure p T Td / p
      = ((Td + 273.15) / (T + 273.15)) ^ ((1 : ℝ) / (kappaDry - kappaDew)) := by
    rw [lclPressure, mul_comm, mul_div_assoc, div_self hp.ne', mul_one]
  have hy1 : (lclPressure p T Td / p) ^ kappaDry ≤ 1 := by
    rw [hdiv]; exact Real.rpow_le_one hx0 hx1 hk.le
  refine ⟨?_, ?_, ?_⟩
  · rw [lcl, lclPressure]
    exact mul_le_of_le_one_right hp.le hx1
  · rw [lcl, lclTemperature]
    have := mul_le_of_le_one_right hTK.le hy1
    simp only []
    linarith
  · intro hlt
    have hr1' : (Td + 273.15) / (T + 273.15) < 1 := (div_lt_one hTK).mpr (by linarith)
    have hx1' : ((Td + 273.15) / (T + 273.15)) ^ ((1 : ℝ) / (kappaDry - kappaDew)) < 1 :=
      Real.rpow_lt_one hr0 hr1' ha
    have hy1' : (lclPressure p T Td / p) ^ kappaDry < 1 := by
      rw [hdiv]; exact Real.rpow_lt_one hx0 hx1' hk
    constructor
    · rw [lcl, lclPressure]
      exact mul_lt_of_lt_one_right hp hx1'
    · rw [lcl, lclTemperature]
      have := mul_lt_of_lt_one_right hTK hy1'
      linarith

/-- Witness for C4: the spec's example surface record, 1000 hPa, 20 °C,
dewpoint 18 °C, yields an LCL strictly below the surface in pressure and
in temperature. -/
theorem c4_lcl_below_surface_witness :
    (lcl 1000 20 18).1 ≤ 1000 ∧ (lcl 1000 20 18).2 ≤ 20
    ∧ (lcl 1000 20 18).1 < 1000 ∧ (lcl 1000 20 18).2 < 20 := by
  have h := c4_lcl_below_surface 1000 20 18 (by norm_num) (by norm_num) (by norm_num)
  exact ⟨h.1, h.2.1, (h.2.2 (by norm_num)).1, (h.2.2 (by norm_num)).2⟩

/-- The complex argument of `sin θ + cos θ * i` at any angle `ψ` in
`(-π, π]` whose cosine and sine match. -/
theorem arg_of_sin_cos (θ ψ : ℝ) (h1 : -Real.pi < ψ) (h2 : ψ ≤ Real.pi)
    (hc : Real.cos ψ = Real.sin θ) (hs : Real.sin ψ = Real.cos θ) :
    Complex.arg (↑(Real.sin θ) + ↑(Real.cos θ) * Complex.I) = ψ := by
  rw [← hc, ← hs, Complex.ofReal_cos, Complex.ofReal_sin]
  exact Complex.arg_cos_add_sin_mul_I ⟨h1, h2⟩

/-- The magnitude of the wind vector recovers the speed. -/
theorem wind_speed_components (s d : ℝ) (hs : 0 ≤ s) :
    wind_speed (wind_components s d).1 (wind_components s d).2 = s := by
  show Real.sqrt ((-s * Real.sin (radiansOfDegrees d)) ^ 2
      + (-s * Real.cos (radiansOfDegrees d)) ^ 2) = s
  have h := Real.sin_sq_add_cos_sq (radiansOfDegrees d)
  have h2 : (-s * Real.sin (radiansOfDegrees d)) ^ 2
      + (-s * Real.cos (radiansOfDegrees d)) ^ 2 = s ^ 2 := by nlinarith [h]
  rw [h2, Real.sqrt_sq hs]

/-- The two-argument arctangent applied to the negated wind components
reduces to the argument of `sin dr + cos dr * i`. -/
theorem atan2_components (s d : ℝ) (hs : 0 < s) :
    atan2 (-(wind_components s d).2) (-(wind_components s d).1)
      = Complex.arg (↑(Real.sin (radiansOfDegrees d)) + ↑(Real.cos (radiansOfDegrees d)) * Complex.I) := by
  show Complex.arg (↑(-(-s * Real.sin (radiansOfDegrees d)))
      + ↑(-(-s * Real.cos (radiansOfDegrees d))) * Complex.I) = _
  have heq : (↑(-(-s * Real.sin (radiansOfDegrees d)))
      + ↑(-(-s * Real.cos (radiansOfDegrees d))) * Complex.I : ℂ)
      = ↑s * (↑(Real.sin (radiansOfDegrees d)) + ↑(Real.cos (radiansOfDegrees d)) * Complex.I) := by
    push_cast
    ring
  rw [heq, Complex.arg_real_mul _ hs]

/-- Recovering the direction from the components gives back the compass
bearing, for any speed `s > 0` and bearing in `(0, 360]`. -/
theorem wind_direction_components (s d : ℝ) (hs : 0 < s) (hd0 : 0 < d) (hd1 : d ≤ 360) :
    wind_direction (wind_components s d).1 (wind_components s d).2 = d := by
  have hπ : (0 : ℝ) < Real.pi := Real.pi_pos
  set dr := radiansOfDegrees d with hdr
  have hcalm : ¬((wind_components s d).1 = 0 ∧ (wind_components s d).2 = 0) := by
    rintro ⟨h1, h2⟩
    have hu : Real.sin dr = 0 := by
      rcases mul_eq_zero.mp h1 with h | h
      · exact absurd h (by simpa using hs.ne')
      · exact h
    have hv : Real.cos dr = 0 := by
      rcases mul_eq_zero.mp h2 with h | h
      · exact absurd h (by simpa using hs.ne')
      · exact h
    nlinarith [Real.sin_sq_add_cos_sq dr]
  rw [wind_direction, if_neg hcalm, atan2_components s d hs]
  by_cases hcase : d < 270
  · have harg : Complex.arg (↑(Real.sin dr) + ↑(Real.cos dr) * Complex.I)
        = Real.pi / 2 - dr := by
      refine arg_of_sin_cos dr (Real.pi / 2 - dr) ?_ ?_ ?_ ?_
      · rw [hdr, radiansOfDegrees]; nlinarith
      · rw [hdr, radiansOfDegrees]; nlinarith
      · exact Real.cos_pi_div_two_sub dr
      · exact Real.sin_pi_div_two_sub dr
    rw [harg]
    have hw : 90 - (Real.pi / 2 - dr) * 180 / Real.pi = d := by
      rw [hdr, radiansOfDegrees]
      field_simp
      ring
    rw [hw, if_neg (not_le.mpr hd0)]
  · push_neg at hcase
    have harg : Complex.arg (↑(Real.sin dr) + ↑(Real.cos dr) * Complex.I)
        = 5 * Real.pi / 2 - dr := by
      refine arg_of_sin_cos dr (5 * Real.pi / 2 - dr) ?_ ?_ ?_ ?_
      · rw [hdr, radiansOfDegrees]; nlinarith
      · rw [hdr, radiansOfDegrees]; nlinarith
      · rw [show 5 * Real.pi / 2 - dr = Real.pi / 2 - dr + 2 * Real.pi from by ring,
          Real.cos_add_two_pi, Real.cos_pi_div_two_sub]
      · rw [show 5 * Real.pi / 2 - dr = Real.pi / 2 - dr + 2 * Real.pi from by ring,
          Real.sin_add_two_pi, Real.sin_pi_div_two_sub]
    rw [harg]
    have hw : 90 - (5 * Real.pi / 2 - dr) * 180 / Real.pi = d - 360 := by
      rw [hdr, radiansOfDegrees]
      field_simp
      ring
    rw [hw, if_pos (by linarith)]
    ring

/-- C7: converting (speed, direction) to components and converting the
components back round-trips exactly, for every positive speed and every
compass bearing in `(0°, 360°]`. -/
theorem c7_wind_roundtrip (s d : ℝ) (hs : 0 < s) (hd0 : 0 < d) (hd1 : d ≤ 360) :
    wind_speed (wind_components s d).1 (wind_components s d).2 = s
    ∧ wind_direction (wind_components s d).1 (wind_components s d).2 = d :=
  ⟨wind_speed_components s d hs.le, wind_direction_components s d hs hd0 hd1⟩

/-- Witness for C7: a 1-knot wind from due south (180°). -/
theorem c7_wind_roundtrip_witness :
    wind_speed (wind_components 1 180).1 (wind_components 1 180).2 = 1
    ∧ wind_direction (wind_components 1 180).1 (wind_components 1 180).2 = 180 :=
  c7_wind_roundtrip 1 180 (by norm_num) (by norm_num) (by norm_num)

/-! ## The pipeline as a whole (error propagation) -/

/-- The three columns the notebook pulls out of the filtered frame for
the thermodynamic calculations (`p`, `T`, `Td`); a missing value stands
in as 0, the way a NaN would flow through `.values`. -/
def frameColumns (df : DataFrame) : List ℚ × List ℚ × List ℚ :=
  (df.map fun x => x.2.pressure.getD 0,
   df.map fun x => x.2.temperature.getD 0,
   df.map fun x => x.2.dewpoint.getD 0)

/-- The script as one run: load, filter, derive, with the two fallible
library computations abstracted as `Except`-valued parameters (a raised
exception is an `Except.error`).  The straight-line script installs no
handler, so each failure is propagated by the plain `match`, exactly as
an uncaught Python exception would abort the run. -/
def runPipeline (fileLines : Option (List String)) (colspecs : List (ℕ × ℕ))
    (lclFn : ℚ → ℚ → ℚ → Except String (ℚ × ℚ))
    (profFn : List ℚ → ℚ → ℚ → Except String (List ℚ)) :
    Except String (DataFrame × (ℚ × ℚ) × List ℚ) :=
  match fileLines with
  | none => Except.error "FileNotFoundError"
  | some lines =>
    let df := filterStage (read_fwf colspecs lines)
    let c := frameColumns df
    match lclFn c.1.headI c.2.1.headI c.2.2.headI with
    | Except.error e => Except.error e
    | Except.ok lclPt =>
      match profFn c.1 c.2.1.headI c.2.2.headI with
      | Except.error e => Except.error e
      | Except.ok prof => Except.ok (df, lclPt, prof)

/-- C10: the pipeline performs no error recovery: a missing input file
aborts the run, a failing LCL or parcel-profile computation aborts the
run with that very error, and a successful run requires every stage to
have succeeded — there is no partial result. -/
theorem c10_no_error_recovery (colspecs : List (ℕ × ℕ))
    (lclFn : ℚ → ℚ → ℚ → Except String (ℚ × ℚ))
    (profFn : List ℚ → ℚ → ℚ → Except String (List ℚ)) :
    runPipeline none colspecs lclFn profFn = Except.error "FileNotFoundError"
    ∧ (∀ lines e,
        lclFn (frameColumns (filterStage (read_fwf colspecs lines))).1.headI
            (frameColumns (filterStage (read_fwf colspecs lines))).2.1.headI
            (frameColumns (filterStage (read_fwf colspecs lines))).2.2.headI
          = Except.error e →
        runPipeline (some lines) colspecs lclFn profFn = Except.error e)
    ∧ (∀ lines lclPt e,
        lclFn (frameColumns (filterStage (read_fwf colspecs lines))).1.headI
            (frameColumns (filterStage (read_fwf colspecs lines))).2.1.headI
            (frameColumns (filterStage (read_fwf colspecs lines))).2.2.headI
          = Except.ok lclPt →
        profFn (frameColumns (filterStage (read_fwf colspecs lines))).1
            (frameColumns (filterStage (read_fwf colspecs lines))).2.1.headI
            (frameColumns (filterStage (read_fwf colspecs lines))).2.2.headI
          = Except.error e →
        runPipeline (some lines) colspecs lclFn profFn = Except.error e)
    ∧ (∀ lines out, runPipeline (some lines) colspecs lclFn profFn = Except.ok out →
        ∃ lclPt prof,
          lclFn (frameColumns (filterStage (read_fwf colspecs lines))).1.headI
              (frameColumns (filterStage (read_fwf colspecs lines))).2.1.headI
              (frameColumns (filterStage (read_fwf colspecs lines))).2.2.headI
            = Except.ok lclPt
          ∧ profFn (frameColumns (filterStage (read_fwf colspecs lines))).1
              (frameColumns (filterStage (read_fwf colspecs lines))).2.1.headI
              (frameColumns (filterStage (read_fwf colspecs lines))).2.2.headI
            = Except.ok prof
          ∧ out = (filterStage (read_fwf colspecs lines), lclPt, prof)) := by
  refine ⟨rfl, ?_, ?_, ?_⟩
  · intro lines e h
    simp [runPipeline, h]
  · intro lines lclPt e h1 h2
    simp [runPipeline, h1, h2]
  · intro lines out h
    rcases h1 : lclFn (frameColumns (filterStage (read_fwf colspecs lines))).1.headI
        (frameColumns (filterStage (read_fwf colspecs lines))).2.1.headI
        (frameColumns (filterStage (read_fwf colspecs lines))).2.2.headI with e | lclPt
    · simp [runPipeline, h1] at h
    · rcases h2 : profFn (frameColumns (filterStage (read_fwf colspecs lines))).1
          (frameColumns (filterStage (read_fwf colspecs lines))).2.1.headI
          (frameColumns (filterStage (read_fwf colspecs lines))).2.2.headI with e | prof
      · simp [runPipeline, h1, h2] at h
      · refine ⟨lclPt, prof, rfl, rfl, ?_⟩
        have h' : (Except.ok (filterStage (read_fwf colspecs lines), lclPt, prof)
            : Except String (DataFrame × (ℚ × ℚ) × List ℚ)) = Except.ok out := by
          rw [← h, runPipeline]
          simp only [h1, h2]
        exact (Except.ok.inj h').symm

/-- Witness for C10: a diverging LCL computation aborts a six-line run
with its own error. -/
theorem c10_no_error_recovery_witness :
    runPipeline (some ["a", "b", "c", "d", "e", "f"]) []
        (fun _ _ _ => Except.error "LCL iteration did not converge")
        (fun _ _ _ => Except.ok [])
      = Except.error "LCL iteration did not converge" :=
  (c10_no_error_recovery [] (fun _ _ _ => Except.error "LCL iteration did not converge")
    (fun _ _ _ => Except.ok [])).2.1 ["a", "b", "c", "d", "e", "f"]
    "LCL iteration did not converge" rfl

end Sounding
